import Mathlib

/-!
Verification of the AI-response acquisition pipeline, reveal scheduler and
chat-export operation of `src/AI_ChatBot/src/App.jsx`, as a shallow embedding.

JavaScript values that matter to the claims are modelled explicitly:
- thrown error values are either typed objects `{type, message, status}` or a
  plain `Error` (message only, no `type` field), so classification
  (`error.type || ErrorTypes.UNKNOWN`) is partial;
- JS truthiness of strings (`""` is falsy) is modelled by `jsOr` / `keyPresent`;
- `"".split(" ") = [""]` is modelled by `jsSplitSpace`.
-/

set_option autoImplicit false

namespace ChatBot

/-- The `ErrorTypes` enumeration (App.jsx lines 50-57). -/
inductive ErrorType where
  | NETWORK
  | TIMEOUT
  | AUTH
  | RATE_LIMIT
  | SERVER
  | UNKNOWN
deriving DecidableEq, Repr

/-- A thrown JS error value: either one of the typed objects
`{type, message, status}` thrown by the adapters, or a plain `new Error(msg)`
(message only, `etype = none`, no status). -/
structure JsError where
  etype : Option ErrorType
  message : String
  status : Option Nat
deriving DecidableEq, Repr

/-- The pipeline's classification of a caught error:
`error.type || ErrorTypes.UNKNOWN` (App.jsx line 311). -/
def classify (e : JsError) : ErrorType :=
  e.etype.getD .UNKNOWN

/-- JS `a || b` on an optional string field: `a` wins iff present and truthy
(non-empty). -/
def jsOr (a : Option String) (b : String) : String :=
  match a with
  | some s => if s = "" then b else s
  | none => b

/-- JS truthiness of `ENV_CONFIG.PUTER_API_KEY`: configured iff present and
non-empty. -/
def keyPresent (k : Option String) : Bool :=
  match k with
  | some s => s ≠ ""
  | none => false

/-- The tolerated success-envelope fields of a direct-API JSON body:
`data.message?.content`, `data.response`, `data.text` (App.jsx 206-212). -/
structure ResponseBody where
  messageContent : Option String
  response : Option String
  text : Option String
deriving DecidableEq, Repr

/-- `data.message?.content || data.response || data.text || "No response generated"`
(App.jsx 207-212). -/
def extractText (data : ResponseBody) : String :=
  jsOr data.messageContent (jsOr data.response (jsOr data.text "No response generated"))

/-- Outcome of the `fetch` inside `callDirectAPI`: a 2xx body, a non-2xx
response with status and the parsed `errorData.error` field, an abort
(timeout fired), or a transport-layer `TypeError` mentioning fetch. -/
inductive FetchOutcome where
  | success (body : ResponseBody)
  | httpError (status : Nat) (errorField : Option String)
  | abortError
  | networkFailure
deriving DecidableEq, Repr

/-- The non-2xx status switch of `callDirectAPI` (App.jsx 177-203). -/
def mapStatus (status : Nat) (errorField : Option String) : JsError :=
  if status = 401 then ⟨some .AUTH, "Invalid API key", some 401⟩
  else if status = 429 then ⟨some .RATE_LIMIT, "Rate limit exceeded", some 429⟩
  else if status = 503 ∨ status = 504 then ⟨some .SERVER, "Service unavailable", some status⟩
  else ⟨some .UNKNOWN, jsOr errorField ("API Error: " ++ toString status), some status⟩

/-- `callDirectAPI` (App.jsx 135-234): with no configured key it throws a
plain `new Error("API key is not configured")` before fetching; otherwise
the fetch outcome is mapped as in the source. The boolean records whether
the network call was issued. -/
def callDirectAPI (apiKey : Option String) (outcome : FetchOutcome) :
    Except JsError String × Bool :=
  if keyPresent apiKey then
    match outcome with
    | .success body => (.ok (extractText body), true)
    | .httpError s m => (.error (mapStatus s m), true)
    | .abortError => (.error ⟨some .TIMEOUT, "Request timeout", some 408⟩, true)
    | .networkFailure => (.error ⟨some .NETWORK, "Network connection failed", some 0⟩, true)
  else
    (.error ⟨none, "API key is not configured", none⟩, false)

/-- The value found at `response?.message?.content` of an SDK response:
either a string or an array of parts, each part carrying an optional
`.text` field. -/
inductive SdkContent where
  | strContent (s : String)
  | arrContent (parts : List (Option String))
deriving DecidableEq, Repr

/-- An SDK response: a plain string (`typeof response === "string"`) or an
object whose `message.content` field is absent (`none`) or present. -/
inductive SdkResponse where
  | str (s : String)
  | obj (content : Option SdkContent)
deriving DecidableEq, Repr

/-- JS truthiness of the `content` value: an empty string is falsy, an
array (even an empty array) is truthy. -/
def contentTruthy : SdkContent → Bool
  | .strContent s => s ≠ ""
  | .arrContent _ => true

/-- The SDK response normalization of `callPuterAI` (App.jsx 269-277):
a plain string is returned as-is; a truthy `message.content` yields the
string itself or, for an array, `content[0]?.text || ""`; anything else
throws `Error("Invalid SDK response format")`. -/
def normalizeSdkResponse : SdkResponse → Except String String
  | .str s => .ok s
  | .obj content =>
    match content with
    | some c =>
      if contentTruthy c then
        match c with
        | .strContent s => .ok s
        | .arrContent parts => .ok (jsOr parts.head?.join "")
      else .error "Invalid SDK response format"
    | none => .error "Invalid SDK response format"

/-- Whether the SDK path fails (provider threw, or normalization threw) —
the condition under which the inner catch of `callPuterAI` runs. -/
def sdkCallFails (sdkOutcome : Except String SdkResponse) : Bool :=
  match sdkOutcome with
  | .error _ => true
  | .ok r =>
    match normalizeSdkResponse r with
    | .error _ => true
    | .ok _ => false

/-- The environment-sourced configuration fields used by the pipeline. -/
structure EnvConfig where
  useDirectAPI : Bool
  apiKey : Option String
  environment : String
  retryDelay : Nat
deriving DecidableEq, Repr

/-- The mock response of the development-only path (App.jsx 304). -/
def mockResponse (prompt : String) : String :=
  "This is a mock response from the AI assistant in development mode.\n\nYour prompt was: \""
    ++ prompt
    ++ "\"\n\nTo use the real API, please add your Puter.ai API key to the .env file."

/-- One execution of the `try` block of `callPuterAI` (App.jsx 251-307):
SDK path when not forced direct and the SDK is loaded, falling back to
`callDirectAPI` inside the inner catch; otherwise the direct path when a
key is configured; otherwise the mock path gated on
`ENVIRONMENT === "development"`; otherwise the typed AUTH throw.
The boolean records whether a network fetch was issued. -/
def attemptBody (cfg : EnvConfig) (sdkLoaded : Bool)
    (sdkOutcome : Except String SdkResponse) (fetchOutcome : FetchOutcome)
    (prompt : String) : Except JsError String × Bool :=
  if !cfg.useDirectAPI && sdkLoaded then
    match sdkOutcome with
    | .ok resp =>
      match normalizeSdkResponse resp with
      | .ok s => (.ok s, false)
      | .error _ => callDirectAPI cfg.apiKey fetchOutcome
    | .error _ => callDirectAPI cfg.apiKey fetchOutcome
  else if keyPresent cfg.apiKey then
    callDirectAPI cfg.apiKey fetchOutcome
  else if cfg.environment = "development" then
    (.ok (mockResponse prompt), false)
  else
    (.error ⟨some .AUTH, "API key is not configured", none⟩, false)

/-- The retry condition of `callPuterAI` (App.jsx 314-320): only these four
kinds are retried. -/
def retryable (t : ErrorType) : Bool :=
  t = .TIMEOUT || t = .NETWORK || t = .SERVER || t = .RATE_LIMIT

/-- The user-facing message switch of `callPuterAI` (App.jsx 328-352). -/
def userFriendlyMessage : ErrorType → String
  | .TIMEOUT => "⏰ Request timed out. Please try again."
  | .NETWORK => "🌐 Network error. Please check your internet connection."
  | .AUTH => "🔑 Authentication failed. Please check your API configuration."
  | .RATE_LIMIT => "⏳ Rate limit exceeded. Please wait a moment and try again."
  | .SERVER => "🔧 Service temporarily unavailable. Please try again later."
  | .UNKNOWN => "⚠️ An unexpected error occurred. Please try again."

/-- Result of a full pipeline invocation: the surfaced value (response text
or user-facing error message), the total number of attempts executed, and
the list of waits inserted before each retry. -/
structure PipelineResult where
  result : Except String String
  calls : Nat
  delays : List Nat
deriving Repr

/-- The retry-by-recursion driver of `callPuterAI` (App.jsx 308-326), over
an oracle giving the outcome of the k-th attempt's `try` block. On a
retryable error with remaining budget it waits `cfg.retryDelay` (a constant,
recorded in `delays`) and recurses with the budget decremented by one;
otherwise it surfaces the user-facing message of the classified kind. -/
def callPuterAI (cfg : EnvConfig) (oracle : Nat → Except JsError String) :
    Nat → Nat → PipelineResult
  | attempt, 0 =>
    match oracle attempt with
    | .ok s => ⟨.ok s, 1, []⟩
    | .error e => ⟨.error (userFriendlyMessage (classify e)), 1, []⟩
  | attempt, retries + 1 =>
    match oracle attempt with
    | .ok s => ⟨.ok s, 1, []⟩
    | .error e =>
      if retryable (classify e) then
        let rest := callPuterAI cfg oracle (attempt + 1) retries
        ⟨rest.result, rest.calls + 1, cfg.retryDelay :: rest.delays⟩
      else ⟨.error (userFriendlyMessage (classify e)), 1, []⟩

/-- JS `s.split(" ")` on a character list: splitting on every space, keeping
empty pieces, so the empty input yields one empty piece. -/
def splitWordsAux : List Char → List Char → List (List Char)
  | [], acc => [acc.reverse]
  | c :: cs, acc =>
    if c = ' ' then acc.reverse :: splitWordsAux cs []
    else splitWordsAux cs (c :: acc)

/-- JS `fullText.split(" ")` (App.jsx 687); in particular
`jsSplitSpace "" = [""]`. -/
def jsSplitSpace (s : String) : List String :=
  (splitWordsAux s.data []).map (fun l => String.mk l)

/-- The mutable state touched by one `simulateStreaming` interval:
whether the interval is still scheduled, the `streamingMessage` buffer,
the closure's `index`, and the committed message texts appended to
`messages`. -/
structure StreamState where
  active : Bool
  buffer : String
  index : Nat
  committed : List String
deriving DecidableEq, Repr

/-- State right after `simulateStreaming` is entered (App.jsx 679-689):
previous interval cleared, buffer reset to `""`, `index = 0`. -/
def streamInit : StreamState :=
  ⟨true, "", 0, []⟩

/-- One firing of the `simulateStreaming` interval callback (App.jsx
690-700): while `index < words.length`, append
`(prev ? " " : "") + words[index]` to the buffer and advance `index`;
otherwise clear the interval, commit `fullText` as a permanent ai message,
and clear the buffer. A cleared interval never fires again, so the step
fixes inactive states. -/
def streamStep (fullText : String) (s : StreamState) : StreamState :=
  if s.active then
    let words := jsSplitSpace fullText
    if s.index < words.length then
      { s with
        buffer := s.buffer ++ (if s.buffer = "" then "" else " ") ++ words.getD s.index ""
        index := s.index + 1 }
    else
      { active := false, buffer := "", index := s.index, committed := s.committed ++ [fullText] }
  else s

/-- The state after `n` interval firings of a reveal of `fullText`. -/
def streamRun (fullText : String) : Nat → StreamState
  | 0 => streamInit
  | n + 1 => streamStep fullText (streamRun fullText n)

/-- A JS `AbortController`, identified by its allocation order. -/
structure Controller where
  id : Nat
deriving DecidableEq, Repr

/-- The allocation and abort state of the page: the next fresh controller
id and the ids whose `abort()` has been called. -/
structure JsRuntime where
  nextId : Nat
  abortedIds : List Nat
deriving DecidableEq, Repr

/-- `new AbortController()`: allocates a fresh controller. -/
def newAbortController (rt : JsRuntime) : Controller × JsRuntime :=
  (⟨rt.nextId⟩, { rt with nextId := rt.nextId + 1 })

/-- `c.abort()`: marks the controller's signal aborted. -/
def abortCall (c : Controller) (rt : JsRuntime) : JsRuntime :=
  { rt with abortedIds := c.id :: rt.abortedIds }

/-- Whether the signal of controller `c` has been aborted. -/
def isAborted (c : Controller) (rt : JsRuntime) : Bool :=
  rt.abortedIds.contains c.id

/-- The per-turn state relevant to cancellation: the runtime, the contents
of `abortControllerRef`, the controller whose signal the in-flight `fetch`
of the previous turn listens to (if any), and whether a reveal tick
schedule (`streamIntervalRef`) is pending. -/
structure TurnState where
  rt : JsRuntime
  abortRef : Option Controller
  pendingFetchSignal : Option Controller
  streamScheduled : Bool
deriving DecidableEq, Repr

/-- The cancellation prelude of `sendMessage` (App.jsx 719-722): abort the
controller held in `abortControllerRef` if any, then store a fresh
controller there. Nothing else is touched: in particular neither the
pending fetch's own controller nor `streamIntervalRef`. -/
def sendMessagePrelude (s : TurnState) : TurnState :=
  let rt1 :=
    match s.abortRef with
    | some c => abortCall c s.rt
    | none => s.rt
  let fresh := newAbortController rt1
  { s with rt := fresh.2, abortRef := some fresh.1 }

/-- The start of the `fetch` inside `callDirectAPI` (App.jsx 143-170): a
controller local to the adapter is allocated and its signal — not the one
held in `abortControllerRef` — is passed to `fetch`. -/
def startFetch (s : TurnState) : TurnState :=
  let fresh := newAbortController s.rt
  { s with rt := fresh.2, pendingFetchSignal := some fresh.1 }

/-- A transcript message as stored in the `messages` state:
`{sender, text}` — note there is no timestamp field (App.jsx 697, 712). -/
structure ChatMessage where
  sender : String
  text : String
deriving DecidableEq, Repr

/-- One record of the exported chat history (App.jsx 783-787). -/
structure ExportRecord where
  role : String
  content : String
  timestamp : String
deriving DecidableEq, Repr

/-- `exportChat` (App.jsx 782-798): maps every stored message to
`{role: sender, content: text, timestamp: new Date().toISOString()}`,
where `now` is the single export-time timestamp. -/
def exportChat (messages : List ChatMessage) (now : String) : List ExportRecord :=
  messages.map (fun m => ⟨m.sender, m.text, now⟩)

/-- C1: whenever an attempt of `callPuterAI` fails with an error classified
as one of TimeoutError, NetworkError, ServerUnavailable, RateLimited and the
remaining retry count is positive, the pipeline waits the fixed configured
delay (constant, not exponential) and recurses with the count decremented by
one; an AuthError is never retried (exactly 1 call for any remaining
budget); with `maxRetries = 3` and every attempt failing with NetworkError,
exactly 4 calls are made, the three waits all equal the configured delay,
and the surfaced error is the network-error user message. -/
theorem callPuterAI_retry_policy (cfg : EnvConfig)
    (oracle : Nat → Except JsError String) :
    (∀ attempt retries e, oracle attempt = .error e → retryable (classify e) = true →
      callPuterAI cfg oracle attempt (retries + 1) =
        ⟨(callPuterAI cfg oracle (attempt + 1) retries).result,
          (callPuterAI cfg oracle (attempt + 1) retries).calls + 1,
          cfg.retryDelay :: (callPuterAI cfg oracle (attempt + 1) retries).delays⟩) ∧
    (∀ attempt retries e, oracle attempt = .error e → classify e = .AUTH →
      callPuterAI cfg oracle attempt retries =
        ⟨.error (userFriendlyMessage .AUTH), 1, []⟩) ∧
    ((∀ k, oracle k = .error ⟨some .NETWORK, "Network connection failed", some 0⟩) →
      callPuterAI cfg oracle 0 3 =
        ⟨.error "🌐 Network error. Please check your internet connection.", 4,
          [cfg.retryDelay, cfg.retryDelay, cfg.retryDelay]⟩) := by
  refine ⟨?_, ?_, ?_⟩
  · intro attempt retries e he hr
    simp [callPuterAI, he, hr]
  · intro attempt retries e he ht
    cases retries with
    | zero => simp [callPuterAI, he, ht]
    | succ n => simp [callPuterAI, he, ht, retryable]
  · intro hnet
    simp [callPuterAI, hnet 0, hnet 1, hnet 2, hnet 3, classify, retryable,
      userFriendlyMessage]

/-- Concrete instance of C1: all-NetworkError run with budget 3 makes 4
calls, waits 1000 ms three times and surfaces the network message; an
AuthError run with the same budget makes exactly 1 call. -/
theorem callPuterAI_retry_policy_witness :
    callPuterAI ⟨false, none, "Live", 1000⟩
        (fun _ => .error ⟨some .NETWORK, "Network connection failed", some 0⟩) 0 3 =
      ⟨.error "🌐 Network error. Please check your internet connection.", 4,
        [1000, 1000, 1000]⟩ ∧
    callPuterAI ⟨false, none, "Live", 1000⟩
        (fun _ => .error ⟨some .AUTH, "Invalid API key", some 401⟩) 0 3 =
      ⟨.error (userFriendlyMessage .AUTH), 1, []⟩ :=
  ⟨(callPuterAI_retry_policy ⟨false, none, "Live", 1000⟩
      (fun _ => .error ⟨some .NETWORK, "Network connection failed", some 0⟩)).2.2
      (fun _ => rfl),
   (callPuterAI_retry_policy ⟨false, none, "Live", 1000⟩
      (fun _ => .error ⟨some .AUTH, "Invalid API key", some 401⟩)).2.1
      0 3 ⟨some .AUTH, "Invalid API key", some 401⟩ rfl rfl⟩

/-- C2: every non-2xx response of `callDirectAPI` is mapped by status:
401 to AuthError, 429 to RateLimited, 503/504 to ServerUnavailable, and any
other status to UnknownApiError carrying the server-provided message when a
truthy one is present; 401 and 429 are mapped this way regardless of the
response body (`m` is universally quantified). -/
theorem callDirectAPI_status_mapping (k : String) (hk : k ≠ "") (s : Nat)
    (m : Option String) :
    (callDirectAPI (some k) (.httpError s m)).1 = .error (mapStatus s m) ∧
    (s = 401 → mapStatus s m = ⟨some .AUTH, "Invalid API key", some 401⟩) ∧
    (s = 429 → mapStatus s m = ⟨some .RATE_LIMIT, "Rate limit exceeded", some 429⟩) ∧
    (s = 503 ∨ s = 504 → mapStatus s m = ⟨some .SERVER, "Service unavailable", some s⟩) ∧
    (s ≠ 401 → s ≠ 429 → s ≠ 503 → s ≠ 504 →
      mapStatus s m = ⟨some .UNKNOWN, jsOr m ("API Error: " ++ toString s), some s⟩ ∧
      ∀ msg, m = some msg → msg ≠ "" → (mapStatus s m).message = msg) := by
  have hkey : keyPresent (some k) = true := by simp [keyPresent, hk]
  refine ⟨by simp [callDirectAPI, hkey], ?_, ?_, ?_, ?_⟩
  · rintro rfl; rfl
  · rintro rfl; rfl
  · rintro (rfl | rfl) <;> rfl
  · intro h1 h2 h3 h4
    have hmap : mapStatus s m =
        ⟨some .UNKNOWN, jsOr m ("API Error: " ++ toString s), some s⟩ := by
      simp [mapStatus, h1, h2, h3, h4]
    refine ⟨hmap, ?_⟩
    rintro msg rfl hmsg
    rw [hmap]
    simp [jsOr, hmsg]

/-- Concrete instance of C2: a 401 with a server body message still maps to
AuthError, and a 429 maps to RateLimited. -/
theorem callDirectAPI_status_mapping_witness :
    (callDirectAPI (some "sk-test") (.httpError 401 (some "ignored body"))).1 =
      .error (mapStatus 401 (some "ignored body")) ∧
    mapStatus 401 (some "ignored body") = ⟨some .AUTH, "Invalid API key", some 401⟩ ∧
    mapStatus 429 none = ⟨some .RATE_LIMIT, "Rate limit exceeded", some 429⟩ :=
  ⟨(callDirectAPI_status_mapping "sk-test" (by decide) 401 (some "ignored body")).1,
   (callDirectAPI_status_mapping "sk-test" (by decide) 401 (some "ignored body")).2.1 rfl,
   (callDirectAPI_status_mapping "sk-test" (by decide) 429 none).2.2.1 rfl⟩

/-- C3: when the SDK path is taken (not forced direct, SDK loaded) and the
SDK call fails — the provider throws, or its response normalizes to an
error — the attempt's outcome is exactly the Transport Adapter's outcome,
so the SDK failure is never surfaced; moreover every error the pipeline
surfaces is one of the six canned user-facing messages, never a raw
SDK error. -/
theorem sdk_failure_falls_back (cfg : EnvConfig)
    (sdkOutcome : Except String SdkResponse) (fetchOutcome : FetchOutcome)
    (prompt : String) (hforce : cfg.useDirectAPI = false)
    (hfail : sdkCallFails sdkOutcome = true) :
    attemptBody cfg true sdkOutcome fetchOutcome prompt =
      callDirectAPI cfg.apiKey fetchOutcome ∧
    ∀ oracle attempt retries msg,
      (callPuterAI cfg oracle attempt retries).result = .error msg →
      ∃ t, msg = userFriendlyMessage t := by
  constructor
  · cases sdkOutcome with
    | error e => simp [attemptBody, hforce]
    | ok r =>
      cases hn : normalizeSdkResponse r with
      | ok s => simp [sdkCallFails, hn] at hfail
      | error msg => simp [attemptBody, hforce, hn]
  · intro oracle attempt retries
    induction retries generalizing attempt with
    | zero =>
      intro msg hmsg
      cases ho : oracle attempt with
      | ok s => simp [callPuterAI, ho] at hmsg
      | error e =>
        simp [callPuterAI, ho] at hmsg
        exact ⟨classify e, hmsg.symm⟩
    | succ n ih =>
      intro msg hmsg
      cases ho : oracle attempt with
      | ok s => simp [callPuterAI, ho] at hmsg
      | error e =>
        by_cases hr : retryable (classify e) = true
        · simp [callPuterAI, ho, hr] at hmsg
          exact ih (attempt + 1) msg hmsg
        · simp [callPuterAI, ho, hr] at hmsg
          exact ⟨classify e, hmsg.symm⟩

/-- Concrete instance of C3: with a key configured, an SDK provider throw
makes the attempt return the Transport Adapter's outcome. -/
theorem sdk_failure_falls_back_witness :
    attemptBody ⟨false, some "sk-test", "Live", 1000⟩ true
        (.error "provider threw") .abortError "hi" =
      callDirectAPI (some "sk-test") .abortError :=
  (sdk_failure_falls_back ⟨false, some "sk-test", "Live", 1000⟩
    (.error "provider threw") .abortError "hi" rfl rfl).1

/-- C4 counterexample: in the non-production environment "staging", with no
SDK and no key, the attempt fails with the typed AuthError instead of
returning the mock response — the mock path requires the environment to be
exactly "development", not merely non-production. -/
theorem mock_gating_counterexample :
    attemptBody ⟨false, none, "staging", 1000⟩ false (.error "no sdk")
        .abortError "hi" =
      (.error ⟨some .AUTH, "API key is not configured", none⟩, false) ∧
    (attemptBody ⟨false, none, "staging", 1000⟩ false (.error "no sdk")
        .abortError "hi" =
      (.ok (mockResponse "hi"), false)) = False := by
  have h : attemptBody ⟨false, none, "staging", 1000⟩ false (.error "no sdk")
      .abortError "hi" =
      (.error ⟨some .AUTH, "API key is not configured", none⟩, false) := rfl
  refine ⟨h, eq_false ?_⟩
  rw [h]
  intro hc
  exact Except.noConfusion (congrArg Prod.fst hc)

/-- C4 amended: with neither the SDK loaded nor a truthy key configured,
the attempt returns the deterministic mock response exactly when the
environment equals "development"; in every other environment (production or
any other non-development name) it fails with AuthError
("API key is not configured"). -/
theorem mock_gating (cfg : EnvConfig) (sdkOutcome : Except String SdkResponse)
    (fetchOutcome : FetchOutcome) (prompt : String)
    (hkey : keyPresent cfg.apiKey = false) :
    (cfg.environment = "development" →
      attemptBody cfg false sdkOutcome fetchOutcome prompt =
        (.ok (mockResponse prompt), false)) ∧
    (cfg.environment ≠ "development" →
      attemptBody cfg false sdkOutcome fetchOutcome prompt =
        (.error ⟨some .AUTH, "API key is not configured", none⟩, false)) := by
  constructor
  · intro he; simp [attemptBody, hkey, he]
  · intro he; simp [attemptBody, hkey, he]

/-- Concrete instance of C4 amended: environment "development" yields the
mock, environment "Live" (the default) yields AuthError. -/
theorem mock_gating_witness :
    attemptBody ⟨false, none, "development", 1000⟩ false (.error "no sdk")
        .abortError "hello" =
      (.ok (mockResponse "hello"), false) ∧
    attemptBody ⟨false, none, "Live", 1000⟩ false (.error "no sdk")
        .abortError "hello" =
      (.error ⟨some .AUTH, "API key is not configured", none⟩, false) :=
  ⟨(mock_gating ⟨false, none, "development", 1000⟩ (.error "no sdk")
      .abortError "hello" rfl).1 rfl,
   (mock_gating ⟨false, none, "Live", 1000⟩ (.error "no sdk")
      .abortError "hello" rfl).2 (by decide)⟩

/-- C5 counterexample: with no configured key, `callDirectAPI` does fail
immediately without fetching, but it throws a plain untyped
`Error("API key is not configured")`, which the pipeline classifies as
UnknownApiError — not AuthError as the claim states. -/
theorem missing_key_counterexample :
    callDirectAPI none .networkFailure =
      (.error ⟨none, "API key is not configured", none⟩, false) ∧
    classify ⟨none, "API key is not configured", none⟩ = .UNKNOWN ∧
    (ErrorType.UNKNOWN = ErrorType.AUTH) = False := by
  refine ⟨rfl, rfl, by simp⟩

/-- C5 amended: with no truthy key configured, `callDirectAPI` fails
immediately without issuing the network call, throwing an untyped error
(message "API key is not configured", no `type` field); the pipeline
classifies it as UnknownApiError and its user-facing message is the generic
unexpected-error message, not the authentication one. -/
theorem missing_key_behavior (apiKey : Option String) (outcome : FetchOutcome)
    (h : keyPresent apiKey = false) :
    callDirectAPI apiKey outcome =
      (.error ⟨none, "API key is not configured", none⟩, false) ∧
    classify ⟨none, "API key is not configured", none⟩ = .UNKNOWN ∧
    userFriendlyMessage (classify ⟨none, "API key is not configured", none⟩) =
      "⚠️ An unexpected error occurred. Please try again." := by
  refine ⟨by simp [callDirectAPI, h], rfl, rfl⟩

/-- Concrete instance of C5 amended: absent key, the network-failure branch
is never reached and no fetch is issued. -/
theorem missing_key_behavior_witness :
    callDirectAPI none .abortError =
      (.error ⟨none, "API key is not configured", none⟩, false) :=
  (missing_key_behavior none .abortError rfl).1

/-- C6 counterexample: an SDK response whose `message.content` is a list
succeeds with `content[0]?.text || ""` — an empty list (or a list with
part texts missing) yields a successful empty string, so the adapter can
succeed with no interpretable text; a multi-part list yields only the first
part's text, not the text of its parts. -/
theorem normalize_no_text_counterexample :
    normalizeSdkResponse (.obj (some (.arrContent []))) = .ok "" ∧
    normalizeSdkResponse (.obj (some (.arrContent [none, some "late text"]))) = .ok "" ∧
    normalizeSdkResponse
        (.obj (some (.arrContent [some "first part", some "second part"]))) =
      .ok "first part" := by
  refine ⟨rfl, rfl, rfl⟩

/-- C6 amended: a plain string response is returned as-is; a non-empty
string `message.content` yields that content; a list-valued
`message.content` succeeds with the first part's text, or with the empty
string when the list is empty or the first part has no truthy text (so a
success with no interpretable text is possible); only a response that is
neither a string nor carries a truthy `message.content` fails with the
SdkCallFailed error ("Invalid SDK response format"). -/
theorem normalizeSdkResponse_spec :
    (∀ s, normalizeSdkResponse (.str s) = .ok s) ∧
    (∀ s, s ≠ "" → normalizeSdkResponse (.obj (some (.strContent s))) = .ok s) ∧
    (∀ parts, normalizeSdkResponse (.obj (some (.arrContent parts))) =
      .ok (jsOr parts.head?.join "")) ∧
    normalizeSdkResponse (.obj (some (.strContent ""))) =
      .error "Invalid SDK response format" ∧
    normalizeSdkResponse (.obj none) = .error "Invalid SDK response format" := by
  refine ⟨fun s => rfl, ?_, fun parts => rfl, rfl, rfl⟩
  intro s hs
  simp [normalizeSdkResponse, contentTruthy, hs]

/-- Concrete instance of C6 amended: a non-empty string content is
returned as the response text. -/
theorem normalizeSdkResponse_spec_witness :
    normalizeSdkResponse (.obj (some (.strContent "hello"))) = .ok "hello" :=
  normalizeSdkResponse_spec.2.1 "hello" (by decide)

/-- C7: revealing "alpha beta gamma" one word per tick drives the visible
buffer through exactly "alpha", "alpha beta", "alpha beta gamma"; on the
following interval firing the full string is committed as a permanent ai
message and the buffer is cleared, and no later firing mutates anything
(the interval has been cleared). -/
theorem streaming_reveal_sequence :
    (streamRun "alpha beta gamma" 1).buffer = "alpha" ∧
    (streamRun "alpha beta gamma" 2).buffer = "alpha beta" ∧
    (streamRun "alpha beta gamma" 3).buffer = "alpha beta gamma" ∧
    (streamRun "alpha beta gamma" 3).committed = [] ∧
    streamRun "alpha beta gamma" 4 = ⟨false, "", 3, ["alpha beta gamma"]⟩ ∧
    ∀ n, streamRun "alpha beta gamma" (4 + n) = streamRun "alpha beta gamma" 4 := by
  refine ⟨by decide, by decide, by decide, by decide, by decide, ?_⟩
  intro n
  induction n with
  | zero => rfl
  | succ k ih =>
    show streamStep "alpha beta gamma" (streamRun "alpha beta gamma" (4 + k)) = _
    rw [ih]
    decide

/-- C8 counterexample: revealing the empty string does not complete with
zero ticks — since `"".split(" ") = [""]`, the first interval firing is a
word-append tick (of the empty word) after which nothing is committed and
the interval is still active; the empty permanent record is committed only
on the second firing. -/
theorem empty_reveal_counterexample :
    (streamRun "" 1).committed = [] ∧
    (streamRun "" 1).active = true ∧
    streamRun "" 2 = ⟨false, "", 1, [""]⟩ := by
  refine ⟨by decide, by decide, by decide⟩

/-- C8 amended: revealing the empty string takes one word-append tick
(appending the single empty word, leaving the buffer "") and commits the
empty-text permanent record on the second interval firing, leaving the
transient buffer empty, with no mutation afterwards. -/
theorem empty_reveal :
    jsSplitSpace "" = [""] ∧
    streamRun "" 1 = ⟨true, "", 1, []⟩ ∧
    streamRun "" 2 = ⟨false, "", 1, [""]⟩ ∧
    ∀ n, streamRun "" (2 + n) = streamRun "" 2 := by
  refine ⟨by decide, by decide, by decide, ?_⟩
  intro n
  induction n with
  | zero => rfl
  | succ k ih =>
    show streamStep "" (streamRun "" (2 + k)) = _
    rw [ih]
    decide

/-- C9 counterexample: in a two-turn trace (turn 1 allocates the ref's
controller 0 and then the fetch's own controller 1; turn 2's prelude aborts
the ref), the abort marks only controller 0, while the controller the
pending fetch actually listens to (controller 1, allocated privately inside
`callDirectAPI`) is never aborted — so the in-flight network call is not
cancelled; the reveal tick schedule is also untouched (that part of the
claim holds). -/
theorem sendMessage_abort_counterexample :
    (startFetch (sendMessagePrelude ⟨⟨0, []⟩, none, none, true⟩)).pendingFetchSignal =
      some ⟨1⟩ ∧
    sendMessagePrelude (startFetch (sendMessagePrelude ⟨⟨0, []⟩, none, none, true⟩)) =
      ⟨⟨3, [0]⟩, some ⟨2⟩, some ⟨1⟩, true⟩ ∧
    isAborted ⟨1⟩
      (sendMessagePrelude
        (startFetch (sendMessagePrelude ⟨⟨0, []⟩, none, none, true⟩))).rt = false := by
  refine ⟨by decide, by decide, by decide⟩

/-- C9 amended: the cancellation prelude of `sendMessage` aborts exactly
the controller held in `abortControllerRef`; the controller whose signal
the pending fetch listens to is left as it was (the ref's signal is never
attached to a fetch, which uses a controller private to `callDirectAPI`),
so its aborted status is unchanged whenever it is a different controller;
and the pending reveal tick schedule is not cancelled before the new
pipeline invocation. -/
theorem sendMessage_abort_behavior (s : TurnState) :
    (sendMessagePrelude s).pendingFetchSignal = s.pendingFetchSignal ∧
    (sendMessagePrelude s).streamScheduled = s.streamScheduled ∧
    (∀ c, s.abortRef = some c → isAborted c (sendMessagePrelude s).rt = true) ∧
    (∀ c fc, s.abortRef = some c → s.pendingFetchSignal = some fc → fc.id ≠ c.id →
      isAborted fc (sendMessagePrelude s).rt = isAborted fc s.rt) := by
  refine ⟨rfl, rfl, ?_, ?_⟩
  · intro c hc
    simp [sendMessagePrelude, hc, abortCall, newAbortController, isAborted]
  · intro c fc hc hfc hne
    simp [sendMessagePrelude, hc, abortCall, newAbortController, isAborted, hne]

/-- Concrete instance of C9 amended, at the state reached after turn 1
(ref holds controller 0, the pending fetch listens to controller 1): the
prelude aborts controller 0 and leaves controller 1 unaborted. -/
theorem sendMessage_abort_behavior_witness :
    isAborted ⟨0⟩ (sendMessagePrelude ⟨⟨2, []⟩, some ⟨0⟩, some ⟨1⟩, true⟩).rt = true ∧
    isAborted ⟨1⟩ (sendMessagePrelude ⟨⟨2, []⟩, some ⟨0⟩, some ⟨1⟩, true⟩).rt =
      isAborted ⟨1⟩ (⟨⟨2, []⟩, some ⟨0⟩, some ⟨1⟩, true⟩ : TurnState).rt :=
  ⟨(sendMessage_abort_behavior ⟨⟨2, []⟩, some ⟨0⟩, some ⟨1⟩, true⟩).2.2.1 ⟨0⟩ rfl,
   (sendMessage_abort_behavior ⟨⟨2, []⟩, some ⟨0⟩, some ⟨1⟩, true⟩).2.2.2
     ⟨0⟩ ⟨1⟩ rfl rfl (by decide)⟩

/-- C10: every exported record's timestamp is the single export-time
timestamp (messages store no original send time at all), so two exports of
the same unchanged conversation at different times agree on every role and
content but differ in every pair of timestamp fields. -/
theorem exportChat_fresh_timestamps (messages : List ChatMessage)
    (t1 t2 : String) (h : t1 ≠ t2) :
    (exportChat messages t1).map ExportRecord.role =
      messages.map ChatMessage.sender ∧
    (exportChat messages t2).map ExportRecord.role =
      messages.map ChatMessage.sender ∧
    (exportChat messages t1).map ExportRecord.content =
      messages.map ChatMessage.text ∧
    (exportChat messages t2).map ExportRecord.content =
      messages.map ChatMessage.text ∧
    (∀ r, r ∈ exportChat messages t1 → r.timestamp = t1) ∧
    (∀ r1 r2, r1 ∈ exportChat messages t1 → r2 ∈ exportChat messages t2 →
      r1.timestamp ≠ r2.timestamp) := by
  have ht1 : ∀ r, r ∈ exportChat messages t1 → r.timestamp = t1 := by
    intro r hr
    simp only [exportChat, List.mem_map] at hr
    obtain ⟨m, _, rfl⟩ := hr
    rfl
  have ht2 : ∀ r, r ∈ exportChat messages t2 → r.timestamp = t2 := by
    intro r hr
    simp only [exportChat, List.mem_map] at hr
    obtain ⟨m, _, rfl⟩ := hr
    rfl
  refine ⟨by simp [exportChat], by simp [exportChat], by simp [exportChat],
    by simp [exportChat], ht1, ?_⟩
  intro r1 r2 h1 h2
  rw [ht1 r1 h1, ht2 r2 h2]
  exact h

/-- Concrete instance of C10: a two-message conversation exported at two
distinct instants keeps roles (and contents) and differs in timestamps. -/
theorem exportChat_fresh_timestamps_witness :
    (exportChat [⟨"user", "hi"⟩, ⟨"ai", "hello"⟩] "2025-01-01T00:00:00.000Z").map
        ExportRecord.role = ["user", "ai"] ∧
    (⟨"user", "hi", "2025-01-01T00:00:00.000Z"⟩ : ExportRecord).timestamp ≠
      (⟨"user", "hi", "2025-01-02T00:00:00.000Z"⟩ : ExportRecord).timestamp :=
  ⟨(exportChat_fresh_timestamps [⟨"user", "hi"⟩, ⟨"ai", "hello"⟩]
      "2025-01-01T00:00:00.000Z" "2025-01-02T00:00:00.000Z" (by decide)).1,
   (exportChat_fresh_timestamps [⟨"user", "hi"⟩, ⟨"ai", "hello"⟩]
      "2025-01-01T00:00:00.000Z" "2025-01-02T00:00:00.000Z" (by decide)).2.2.2.2.2
     ⟨"user", "hi", "2025-01-01T00:00:00.000Z"⟩
     ⟨"user", "hi", "2025-01-02T00:00:00.000Z"⟩ (by decide) (by decide)⟩

end ChatBot
